import Mathlib

/-!
Shallow embedding of the synthwave flight simulation core
(src/components/City.tsx, src/components/Terrain.tsx and the scene file
holding FlightCameraRig and SpeedLines).

Numeric model: the JavaScript arithmetic of the pool recycler and the
spectrum mapper is embedded over the rationals; the trigonometric terrain
and camera functions are embedded over the reals with Real.sin / Real.cos.
Math.random() draws are explicit rational parameters in the interval
half-open zero-one.
-/

namespace Synthwave

/-- GLSL clamp of a value to the unit interval. -/
def clamp01 (t : ℚ) : ℚ := max 0 (min 1 t)

/-- GLSL Hermite basis t * t * (3 - 2 * t). -/
def hermite (t : ℚ) : ℚ := t * t * (3 - 2 * t)

/-- GLSL smoothstep(e0, e1, x): Hermite interpolation of the clamped
normalized position of x between the two edges. -/
def smoothstep (e0 e1 x : ℚ) : ℚ :=
  hermite (clamp01 ((x - e0) / (e1 - e0)))

/-- Horizon-fade opacity of the building fragment shader:
alpha = smoothstep(uFadeZ, uVisibleZ, vZ) with uFadeZ = -140, uVisibleZ = -80. -/
def buildingAlpha (z : ℚ) : ℚ := smoothstep (-140) (-80) z

/-- One pooled building of City.tsx: position, box extents and the edge
accent color drawn at construction (true = cyan #00ffff, false = magenta
#ff00ff). -/
structure Building where
  x : ℚ
  y : ℚ
  z : ℚ
  width : ℚ
  depth : ℚ
  height : ℚ
  edgeCyan : Bool
deriving DecidableEq

/-- generateBuildings of City.tsx, one building: each rParameter stands for
one Math.random() draw (a rational in the half-open unit interval), in the
order the source draws them (side, x offset, z, width, depth, height,
edge color). roadWidth = 10. -/
def genBuilding (rSide rX rZ rW rD rH rC : ℚ) : Building :=
  let side : ℚ := if rSide > 1/2 then 1 else -1
  let height : ℚ := rH * 20 + 5
  { x := side * (10 / 2 + rX * 30 + 5)
    y := height / 2 - 2
    z := -rZ * 160
    width := rW * 4 + 2
    depth := rD * 4 + 2
    height := height
    edgeCyan := if rC > 1/2 then true else false }

/-- City.useFrame advance: mesh.position.z += speed * delta with speed = 30. -/
def cityAdvance (b : Building) (delta : ℚ) : Building :=
  { b with z := b.z + 30 * delta }

/-- City.useFrame respawn branch: if position.z > 20, set z to
respawnZ = -150 and redraw x with the construction-time lateral
distribution (side times road half-width plus random spread). -/
def cityMaybeRespawn (b : Building) (rSide rX : ℚ) : Building :=
  if b.z > 20 then
    let side : ℚ := if rSide > 1/2 then 1 else -1
    { b with z := -150, x := side * (10 / 2 + rX * 30 + 5) }
  else b

/-- One full City.useFrame tick for one building: advance then respawn
check, as the source performs both inside the same frame callback. -/
def cityStep (b : Building) (delta rSide rX : ℚ) : Building :=
  cityMaybeRespawn (cityAdvance b delta) rSide rX

/-- Inputs of one City.useFrame tick: the frame delta and the two
Math.random() draws the respawn branch may consume. -/
structure CityTick where
  delta : ℚ
  rSide : ℚ
  rX : ℚ

/-- The building after a sequence of City.useFrame ticks. -/
def cityRun (b : Building) (ticks : List CityTick) : Building :=
  ticks.foldl (fun acc tk => cityStep acc tk.delta tk.rSide tk.rX) b

/-- Every observable state of a building along a sequence of ticks,
starting state included. -/
def cityStates (b : Building) : List CityTick → List Building
  | [] => [b]
  | tk :: ts => b :: cityStates (cityStep b tk.delta tk.rSide tk.rX) ts

/-- One pooled speed-streak of the SpeedLines component. -/
structure SpeedLine where
  x : ℚ
  y : ℚ
  z : ℚ
  speed : ℚ
  length : ℚ
deriving DecidableEq

/-- SpeedLines construction, one line: x = (r-0.5)*60, y = r*20,
z = -r*100, speed = r*0.5+0.5, length = r*10+5, each r an independent
Math.random() draw. -/
def genSpeedLine (rX rY rZ rS rL : ℚ) : SpeedLine :=
  { x := (rX - 1/2) * 60
    y := rY * 20
    z := -rZ * 100
    speed := rS * (1/2) + 1/2
    length := rL * 10 + 5 }

/-- One SpeedLines.useFrame tick for one line: z += speed * 80 * delta,
then if z > 10 reset z to -100 and redraw x and y. -/
def speedLineStep (l : SpeedLine) (delta rX rY : ℚ) : SpeedLine :=
  let moved := { l with z := l.z + l.speed * 80 * delta }
  if moved.z > 10 then
    { moved with z := -100, x := (rX - 1/2) * 60, y := rY * 20 }
  else moved

/-- Inputs of one SpeedLines.useFrame tick. -/
structure SpeedTick where
  delta : ℚ
  rX : ℚ
  rY : ℚ

/-- Every observable state of a speed line along a sequence of ticks. -/
def speedStates (l : SpeedLine) : List SpeedTick → List SpeedLine
  | [] => [l]
  | tk :: ts => l :: speedStates (speedLineStep l tk.delta tk.rX tk.rY) ts

/-- Spectrum.useFrame intensity of one byte-valued frequency bin:
data / 100.0 - 1.2. -/
def intensity (m : ℕ) : ℚ := (m : ℚ) / 100 - 12/10

/-- Spectrum.useFrame radial scale of one bar: Math.max(0, intensity * 40). -/
def scaleY (m : ℕ) : ℚ := max 0 (intensity m * 40)

/-- An RGB color with rational components, as THREE.Color holds floats. -/
structure Color3 where
  r : ℚ
  g : ℚ
  b : ℚ
deriving DecidableEq

/-- First accent color of the spectrum ring: cyan #00ffff. -/
def colorA : Color3 := ⟨0, 1, 1⟩

/-- Second accent color of the spectrum ring: magenta #ff00ff. -/
def colorB : Color3 := ⟨1, 0, 1⟩

/-- THREE.Color.lerp: each component moves toward the target by the raw
(unclamped) factor: this.r += (color.r - this.r) * alpha. -/
def colorLerp (c d : Color3) (alpha : ℚ) : Color3 :=
  ⟨c.r + (d.r - c.r) * alpha, c.g + (d.g - c.g) * alpha, c.b + (d.b - c.b) * alpha⟩

/-- Spectrum.useFrame bar color: colorA lerped toward colorB by
intensity * intensity * 1.2. -/
def spectrumColor (m : ℕ) : Color3 :=
  colorLerp colorA colorB (intensity m * intensity m * (12/10))

/-- Terrain elevation of the GridMaterial vertex shader, as a pure function
of the normalized lateral coordinate u = uv.x, the depth coordinate
v = uv.y and the elapsed time t = uTime: zero inside the central road band
(dist = abs(u - 0.5) * 2 at most 0.4), and outside it
pow(factor, 3) * 30 plus the traveling sine/cosine noise scaled by factor,
with factor = (dist - 0.4) / 0.6. -/
noncomputable def elevation (u v t : ℝ) : ℝ :=
  let dist := |u - 0.5| * 2
  if dist > 0.4 then
    let factor := (dist - 0.4) / 0.6
    factor ^ 3 * 30 +
      (Real.sin (v * 10 + t * 12) * 2 + Real.cos (u * 20) * 2) * factor
  else 0

/-- Camera pose of the FlightCameraRig: position, the roll component of the
rotation, and the look-at target set each frame. -/
structure Pose where
  px : ℝ
  py : ℝ
  pz : ℝ
  rotZ : ℝ
  lookX : ℝ
  lookY : ℝ
  lookZ : ℝ

/-- THREE.MathUtils.lerp(x, y, t) = (1 - t) * x + t * y. -/
def mathLerp (x y t : ℝ) : ℝ := (1 - t) * x + t * y

/-- FlightCameraRig target lateral offset: the sum of sines of elapsed time
with base speed 0.5. -/
noncomputable def camX (t : ℝ) : ℝ :=
  Real.sin (t * 0.5 * 0.5) * 3 + Real.sin (t * 0.5 * 1.3) * 3 +
    Real.cos (t * 0.5 * 0.2) * 2

/-- FlightCameraRig target vertical offset. -/
noncomputable def camY (t : ℝ) : ℝ :=
  6 + Real.sin (t * 0.5 * 0.7) * 3 + Real.cos (t * 0.5 * 1.5) * 1

/-- FlightCameraRig banking signal, the source's analytic approximation of
the derivative of the lateral target. -/
noncomputable def camDx (t : ℝ) : ℝ :=
  Real.cos (t * 0.5 * 0.5) * 0.5 * 3 + Real.cos (t * 0.5 * 1.3) * 1.3 * 3 -
    Real.sin (t * 0.5 * 0.2) * 0.2 * 2

/-- FlightCameraRig lateral jitter: sin(t * 25) * 0.03. -/
noncomputable def jitterX (t : ℝ) : ℝ := Real.sin (t * 25) * 0.03

/-- FlightCameraRig vertical jitter: cos(t * 25 * 1.2) * 0.03. -/
noncomputable def jitterY (t : ℝ) : ℝ := Real.cos (t * 25 * 1.2) * 0.03

/-- FlightCameraRig roll jitter: sin(t * 25 * 1.5) * (0.03 * 0.5). -/
noncomputable def jitterRot (t : ℝ) : ℝ := Real.sin (t * 25 * 1.5) * (0.03 * 0.5)

/-- One FlightCameraRig frame: lerp the position toward target plus jitter,
point the camera at the look target, then lerp the roll toward
-dx * 0.2 plus jitter. The engine's lookAt writes the whole rotation from
the new position and the target; its effect on rotation.z is the
deterministic resolver L (new position, look target, in that argument
order), a fixed function of the engine. -/
noncomputable def camStep (L : ℝ → ℝ → ℝ → ℝ → ℝ → ℝ → ℝ) (p : Pose)
    (t : ℝ) : Pose :=
  let x := camX t
  let y := camY t
  let dx := camDx t
  let px := mathLerp p.px (x + jitterX t) 0.1
  let py := mathLerp p.py (y + jitterY t) 0.1
  let lx := x * 0.5
  let ly := y * 0.5 - 10
  let lz : ℝ := -100
  let rotAfterLook := L px py p.pz lx ly lz
  let targetRoll := -dx * 0.2
  { px := px, py := py, pz := p.pz
    rotZ := mathLerp rotAfterLook (targetRoll + jitterRot t) 0.1
    lookX := lx, lookY := ly, lookZ := lz }

/-- Every camera pose produced along a sequence of elapsed-time samples,
initial pose included. -/
noncomputable def camStates (L : ℝ → ℝ → ℝ → ℝ → ℝ → ℝ → ℝ) (p : Pose) :
    List ℝ → List Pose
  | [] => [p]
  | t :: ts => p :: camStates L (camStep L p t) ts

/-- The scene's initial camera: PerspectiveCamera position [0, 3, 10],
no roll, look target not yet set. -/
def initialPose : Pose := ⟨0, 3, 10, 0, 0, 0, 0⟩

/-- A concrete deterministic look-at resolver usable for witnesses. -/
def lookAtZero : ℝ → ℝ → ℝ → ℝ → ℝ → ℝ → ℝ := fun _ _ _ _ _ _ => 0

/-! Helper lemmas shared by the claim theorems. -/

lemma clamp01_of_le_zero {t : ℚ} (h : t ≤ 0) : clamp01 t = 0 :=
  max_eq_left ((min_le_right 1 t).trans h)

lemma clamp01_of_one_le {t : ℚ} (h : 1 ≤ t) : clamp01 t = 1 := by
  unfold clamp01
  rw [min_eq_left h]
  norm_num

lemma clamp01_of_mem {t : ℚ} (h0 : 0 ≤ t) (h1 : t ≤ 1) : clamp01 t = t := by
  unfold clamp01
  rw [min_eq_right h1, max_eq_right h0]

lemma hermite_mono {a b : ℚ} (ha : 0 ≤ a) (hab : a ≤ b) (hb : b ≤ 1) :
    hermite a ≤ hermite b := by
  have ha1 : a ≤ 1 := hab.trans hb
  have hb0 : 0 ≤ b := ha.trans hab
  unfold hermite
  nlinarith [mul_nonneg (mul_nonneg (sub_nonneg.mpr hab) ha) (sub_nonneg.mpr ha1),
    mul_nonneg (mul_nonneg (sub_nonneg.mpr hab) hb0) (sub_nonneg.mpr hb),
    mul_nonneg (mul_nonneg (sub_nonneg.mpr hab) ha) (sub_nonneg.mpr hb),
    mul_nonneg (mul_nonneg (sub_nonneg.mpr hab) hb0) (sub_nonneg.mpr ha1)]

lemma smoothstep_of_le {e0 e1 x : ℚ} (he : e0 < e1) (hx : x ≤ e0) :
    smoothstep e0 e1 x = 0 := by
  have harg : (x - e0) / (e1 - e0) ≤ 0 :=
    div_nonpos_iff.mpr (Or.inr ⟨by linarith, by linarith⟩)
  rw [smoothstep, clamp01_of_le_zero harg]
  norm_num [hermite]

lemma smoothstep_of_ge {e0 e1 x : ℚ} (he : e0 < e1) (hx : e1 ≤ x) :
    smoothstep e0 e1 x = 1 := by
  have hpos : (0 : ℚ) < e1 - e0 := by linarith
  have harg : 1 ≤ (x - e0) / (e1 - e0) := by
    rw [le_div_iff hpos]
    linarith
  rw [smoothstep, clamp01_of_one_le harg]
  norm_num [hermite]

lemma smoothstep_mono {e0 e1 x y : ℚ} (he : e0 < e1) (hx : e0 ≤ x)
    (hxy : x ≤ y) (hy : y ≤ e1) : smoothstep e0 e1 x ≤ smoothstep e0 e1 y := by
  have hpos : (0 : ℚ) < e1 - e0 := by linarith
  have hx0 : 0 ≤ (x - e0) / (e1 - e0) := div_nonneg (by linarith) hpos.le
  have hx1 : (x - e0) / (e1 - e0) ≤ 1 := by
    rw [div_le_one hpos]
    linarith
  have hy0 : 0 ≤ (y - e0) / (e1 - e0) := div_nonneg (by linarith) hpos.le
  have hy1 : (y - e0) / (e1 - e0) ≤ 1 := by
    rw [div_le_one hpos]
    linarith
  have hle : (x - e0) / (e1 - e0) ≤ (y - e0) / (e1 - e0) :=
    (div_le_div_right hpos).mpr (by linarith)
  rw [smoothstep, smoothstep, clamp01_of_mem hx0 hx1, clamp01_of_mem hy0 hy1]
  exact hermite_mono hx0 hle hy1

lemma cityStep_z_eq (b : Building) (delta rSide rX : ℚ) :
    (cityStep b delta rSide rX).z =
      if b.z + 30 * delta > 20 then -150 else b.z + 30 * delta := by
  unfold cityStep cityAdvance cityMaybeRespawn
  by_cases hc : b.z + 30 * delta > 20 <;> simp [hc]

lemma cityStep_z_bounds {lo : ℚ} (hlo : lo ≤ -150) (b : Building)
    (delta rSide rX : ℚ) (h1 : lo ≤ b.z) (h2 : b.z ≤ 20) (hd : 0 ≤ delta) :
    lo ≤ (cityStep b delta rSide rX).z ∧ (cityStep b delta rSide rX).z ≤ 20 := by
  rw [cityStep_z_eq]
  by_cases hc : b.z + 30 * delta > 20
  · rw [if_pos hc]
    constructor <;> linarith
  · rw [if_neg hc]
    push_neg at hc
    constructor <;> nlinarith

lemma cityStates_z_bounds {lo : ℚ} (hlo : lo ≤ -150) :
    ∀ (ticks : List CityTick) (b : Building), lo ≤ b.z → b.z ≤ 20 →
      (∀ tk ∈ ticks, 0 ≤ tk.delta) →
      ∀ s ∈ cityStates b ticks, lo ≤ s.z ∧ s.z ≤ 20 := by
  intro ticks
  induction ticks with
  | nil =>
    intro b h1 h2 _ s hs
    simp only [cityStates, List.mem_singleton] at hs
    subst hs
    exact ⟨h1, h2⟩
  | cons tk ts ih =>
    intro b h1 h2 hd s hs
    simp only [cityStates, List.mem_cons] at hs
    rcases hs with rfl | hs
    · exact ⟨h1, h2⟩
    · have hdt : 0 ≤ tk.delta := hd tk (by simp)
      obtain ⟨hl, hr⟩ := cityStep_z_bounds hlo b tk.delta tk.rSide tk.rX h1 h2 hdt
      exact ih _ hl hr (fun t ht => hd t (by simp [ht])) s hs

lemma speedLineStep_speed (l : SpeedLine) (delta rX rY : ℚ) :
    (speedLineStep l delta rX rY).speed = l.speed := by
  unfold speedLineStep
  by_cases hc : l.z + l.speed * 80 * delta > 10 <;> simp [hc]

lemma speedLineStep_z_eq (l : SpeedLine) (delta rX rY : ℚ) :
    (speedLineStep l delta rX rY).z =
      if l.z + l.speed * 80 * delta > 10 then -100
      else l.z + l.speed * 80 * delta := by
  unfold speedLineStep
  by_cases hc : l.z + l.speed * 80 * delta > 10 <;> simp [hc]

lemma speedLineStep_z_bounds (l : SpeedLine) (delta rX rY : ℚ)
    (hs : 0 ≤ l.speed) (h1 : -100 ≤ l.z) (h2 : l.z ≤ 10) (hd : 0 ≤ delta) :
    -100 ≤ (speedLineStep l delta rX rY).z ∧
      (speedLineStep l delta rX rY).z ≤ 10 := by
  have hmv : 0 ≤ l.speed * 80 * delta :=
    mul_nonneg (mul_nonneg hs (by norm_num)) hd
  rw [speedLineStep_z_eq]
  by_cases hc : l.z + l.speed * 80 * delta > 10
  · rw [if_pos hc]
    constructor <;> linarith
  · rw [if_neg hc]
    push_neg at hc
    constructor <;> linarith

lemma speedStates_z_bounds :
    ∀ (ticks : List SpeedTick) (l : SpeedLine), 0 ≤ l.speed → -100 ≤ l.z →
      l.z ≤ 10 → (∀ tk ∈ ticks, 0 ≤ tk.delta) →
      ∀ s ∈ speedStates l ticks, -100 ≤ s.z ∧ s.z ≤ 10 := by
  intro ticks
  induction ticks with
  | nil =>
    intro l _ h1 h2 _ s hs
    simp only [speedStates, List.mem_singleton] at hs
    subst hs
    exact ⟨h1, h2⟩
  | cons tk ts ih =>
    intro l hsp h1 h2 hd s hs
    simp only [speedStates, List.mem_cons] at hs
    rcases hs with rfl | hs
    · exact ⟨h1, h2⟩
    · have hdt : 0 ≤ tk.delta := hd tk (by simp)
      obtain ⟨hl, hr⟩ := speedLineStep_z_bounds l tk.delta tk.rX tk.rY hsp h1 h2 hdt
      have hsp2 : 0 ≤ (speedLineStep l tk.delta tk.rX tk.rY).speed := by
        rw [speedLineStep_speed]
        exact hsp
      exact ih _ hsp2 hl hr (fun t ht => hd t (by simp [ht])) s hs

lemma cityMaybeRespawn_statics (b : Building) (rSide rX : ℚ) :
    (cityMaybeRespawn b rSide rX).y = b.y ∧
    (cityMaybeRespawn b rSide rX).width = b.width ∧
    (cityMaybeRespawn b rSide rX).depth = b.depth ∧
    (cityMaybeRespawn b rSide rX).height = b.height ∧
    (cityMaybeRespawn b rSide rX).edgeCyan = b.edgeCyan := by
  unfold cityMaybeRespawn
  split <;> simp

lemma cityStep_statics (b : Building) (delta rSide rX : ℚ) :
    (cityStep b delta rSide rX).y = b.y ∧
    (cityStep b delta rSide rX).width = b.width ∧
    (cityStep b delta rSide rX).depth = b.depth ∧
    (cityStep b delta rSide rX).height = b.height ∧
    (cityStep b delta rSide rX).edgeCyan = b.edgeCyan := by
  unfold cityStep cityAdvance cityMaybeRespawn
  split <;> simp

lemma cityRun_statics :
    ∀ (ticks : List CityTick) (b : Building),
      (cityRun b ticks).y = b.y ∧ (cityRun b ticks).width = b.width ∧
      (cityRun b ticks).depth = b.depth ∧ (cityRun b ticks).height = b.height ∧
      (cityRun b ticks).edgeCyan = b.edgeCyan := by
  intro ticks
  induction ticks with
  | nil => intro b; simp [cityRun]
  | cons tk ts ih =>
    intro b
    have hstep := cityStep_statics b tk.delta tk.rSide tk.rX
    have hrest := ih (cityStep b tk.delta tk.rSide tk.rX)
    have hunfold : cityRun b (tk :: ts) =
        cityRun (cityStep b tk.delta tk.rSide tk.rX) ts := rfl
    rw [hunfold]
    exact ⟨hrest.1.trans hstep.1, hrest.2.1.trans hstep.2.1,
      hrest.2.2.1.trans hstep.2.2.1, hrest.2.2.2.1.trans hstep.2.2.2.1,
      hrest.2.2.2.2.trans hstep.2.2.2.2⟩

/-! Claim theorems. -/

/-- C1 (counterexample): the claim fails at pool construction. The draw
rZ = 97/100 is a valid Math.random() value, yet the generated building's
travel-axis coordinate is -776/5 = -155.2, strictly below
respawnZ = -150, so not every prop starts inside [respawnZ, 20]. -/
theorem c1_counterexample :
    (0 : ℚ) ≤ 97/100 ∧ (97/100 : ℚ) < 1 ∧
      (genBuilding (3/5) (1/2) (97/100) (1/2) (1/2) (1/2) (1/2)).z = -776/5 ∧
      ¬ (-150 ≤ (genBuilding (3/5) (1/2) (97/100) (1/2) (1/2) (1/2) (1/2)).z) := by
  norm_num [genBuilding]

/-- C1 (amended): a building's initial travel-axis coordinate lies in
(-160, 0] — it can undershoot respawnZ = -150 by up to 10 units — and the
interval [-160, 20] (and, once entered, the spec's [-150, 20]) is invariant
at every observable state under any sequence of advance+maybeRespawn ticks
with nonnegative deltas; a speed-streak's initial coordinate lies in
(-100, 0] and [-100, 10] is invariant under its ticks. -/
theorem c1_travel_axis_bounds :
    (∀ rSide rX rZ rW rD rH rC : ℚ, 0 ≤ rZ → rZ < 1 →
      -160 < (genBuilding rSide rX rZ rW rD rH rC).z ∧
        (genBuilding rSide rX rZ rW rD rH rC).z ≤ 0) ∧
    (∀ (b : Building) (ticks : List CityTick), -160 ≤ b.z → b.z ≤ 20 →
      (∀ tk ∈ ticks, 0 ≤ tk.delta) →
      ∀ s ∈ cityStates b ticks, -160 ≤ s.z ∧ s.z ≤ 20) ∧
    (∀ (b : Building) (ticks : List CityTick), -150 ≤ b.z → b.z ≤ 20 →
      (∀ tk ∈ ticks, 0 ≤ tk.delta) →
      ∀ s ∈ cityStates b ticks, -150 ≤ s.z ∧ s.z ≤ 20) ∧
    (∀ rX rY rZ rS rL : ℚ, 0 ≤ rZ → rZ < 1 →
      -100 < (genSpeedLine rX rY rZ rS rL).z ∧
        (genSpeedLine rX rY rZ rS rL).z ≤ 0) ∧
    (∀ (l : SpeedLine) (ticks : List SpeedTick), 0 ≤ l.speed →
      -100 ≤ l.z → l.z ≤ 10 → (∀ tk ∈ ticks, 0 ≤ tk.delta) →
      ∀ s ∈ speedStates l ticks, -100 ≤ s.z ∧ s.z ≤ 10) := by
  refine ⟨?_, ?_, ?_, ?_, ?_⟩
  · intro rSide rX rZ rW rD rH rC h0 h1
    unfold genBuilding
    constructor <;> simp <;> nlinarith
  · intro b ticks h1 h2 hd s hs
    exact cityStates_z_bounds (by norm_num) ticks b h1 h2 hd s hs
  · intro b ticks h1 h2 hd s hs
    exact cityStates_z_bounds (by norm_num) ticks b h1 h2 hd s hs
  · intro rX rY rZ rS rL h0 h1
    unfold genSpeedLine
    constructor <;> simp <;> nlinarith
  · intro l ticks hsp h1 h2 hd s hs
    exact speedStates_z_bounds ticks l hsp h1 h2 hd s hs

/-- C1 (witness): the amended theorem applied at the draw rZ = 1/2 gives an
initial coordinate inside (-160, 0]. -/
theorem c1_witness :
    (0 : ℚ) ≤ 1/2 ∧ (1/2 : ℚ) < 1 ∧
      -160 < (genBuilding 0 0 (1/2) 0 0 0 0).z ∧
      (genBuilding 0 0 (1/2) 0 0 0 0).z ≤ 0 :=
  ⟨by norm_num, by norm_num,
    c1_travel_axis_bounds.1 0 0 (1/2) 0 0 0 0 (by norm_num) (by norm_num)⟩

/-- C2 (code bug, evaluated at the failing input): at bin energy 0 the
radial scale is 0 as claimed, but the color lerp factor is
(0/100 - 1.2)^2 * 1.2 = 216/125 = 1.728, and the unclamped THREE.Color.lerp
yields RGB (216/125, -91/125, 1) — not the first accent color cyan (0,1,1)
the claim (and the source's own comment, cyan at low energy) requires. -/
theorem c2_zero_frame_eval :
    scaleY 0 = 0 ∧
      spectrumColor 0 = ⟨216/125, -91/125, 1⟩ ∧
      spectrumColor 0 ≠ colorA := by
  refine ⟨?_, ?_, ?_⟩ <;>
    simp [scaleY, intensity, spectrumColor, colorLerp, colorA, colorB,
      Color3.mk.injEq] <;>
    norm_num

/-- C3 (counterexample): the frame delta is not clamped. Feeding the raw
delta 1000 to the advance step carries a building at z = 0 to z = 30000,
far beyond the despawn threshold 20 — no safe-maximum clamp exists upstream
of the per-frame computation. -/
theorem c3_counterexample :
    (cityAdvance ⟨0, 0, 0, 2, 2, 10, true⟩ 1000).z = 30000 ∧
      ¬ ((cityAdvance ⟨0, 0, 0, 2, 2, 10, true⟩ 1000).z ≤ 20) := by
  norm_num [cityAdvance]

/-- C3 (amended): no delta clamp exists — the advance step's displacement
is unbounded in the delta, so a prop can be carried arbitrarily far past
the despawn threshold within a tick — but the same tick's respawn check
resets any prop past the threshold to respawnZ, so the position after a
full advance+maybeRespawn tick from an in-bounds state is back inside
[-150, 20]. -/
theorem c3_delta_unclamped_respawn_recovers :
    (∀ M : ℚ, ∃ delta : ℚ, 0 ≤ delta ∧
      M < (cityAdvance ⟨0, 0, 0, 2, 2, 10, true⟩ delta).z) ∧
    (∀ (b : Building) (delta rSide rX : ℚ), -150 ≤ b.z → b.z ≤ 20 →
      0 ≤ delta → -150 ≤ (cityStep b delta rSide rX).z ∧
        (cityStep b delta rSide rX).z ≤ 20) := by
  constructor
  · intro M
    refine ⟨|M| + 1, by positivity, ?_⟩
    have h1 := abs_nonneg M
    have h2 := le_abs_self M
    unfold cityAdvance
    simp only
    nlinarith
  · intro b delta rSide rX h1 h2 hd
    exact cityStep_z_bounds (by norm_num) b delta rSide rX h1 h2 hd

/-- C3 (witness): the amended theorem applied at delta = 1000 from z = 0:
the full tick lands the building back inside [-150, 20]. -/
theorem c3_witness :
    (-150 : ℚ) ≤ (0 : ℚ) ∧ (0 : ℚ) ≤ 20 ∧ (0 : ℚ) ≤ 1000 ∧
      -150 ≤ (cityStep ⟨0, 0, 0, 2, 2, 10, true⟩ 1000 0 0).z ∧
      (cityStep ⟨0, 0, 0, 2, 2, 10, true⟩ 1000 0 0).z ≤ 20 :=
  ⟨by norm_num, by norm_num, by norm_num,
    (c3_delta_unclamped_respawn_recovers.2 ⟨0, 0, 0, 2, 2, 10, true⟩ 1000 0 0
      (by norm_num) (by norm_num) (by norm_num)).1,
    (c3_delta_unclamped_respawn_recovers.2 ⟨0, 0, 0, 2, 2, 10, true⟩ 1000 0 0
      (by norm_num) (by norm_num) (by norm_num)).2⟩

/-- C4: the horizon-fade opacity smoothstep(-140, -80, z) equals 0 at or
below fadeZ = -140, equals 1 at or above visibleZ = -80, and is monotone
non-decreasing on the band [-140, -80]. -/
theorem c4_horizon_fade :
    (∀ z : ℚ, z ≤ -140 → buildingAlpha z = 0) ∧
    (∀ z : ℚ, -80 ≤ z → buildingAlpha z = 1) ∧
    (∀ z₁ z₂ : ℚ, -140 ≤ z₁ → z₁ ≤ z₂ → z₂ ≤ -80 →
      buildingAlpha z₁ ≤ buildingAlpha z₂) := by
  refine ⟨?_, ?_, ?_⟩
  · intro z hz
    exact smoothstep_of_le (by norm_num) hz
  · intro z hz
    exact smoothstep_of_ge (by norm_num) hz
  · intro z₁ z₂ h1 h12 h2
    exact smoothstep_mono (by norm_num) h1 h12 h2

/-- C4 (witness): the three parts applied at z = -150, z = 0 and the pair
z = -120 ≤ -90 inside the band. -/
theorem c4_witness :
    ((-150 : ℚ) ≤ -140 ∧ buildingAlpha (-150) = 0) ∧
      ((-80 : ℚ) ≤ 0 ∧ buildingAlpha 0 = 1) ∧
      buildingAlpha (-120) ≤ buildingAlpha (-90) :=
  ⟨⟨by norm_num, c4_horizon_fade.1 (-150) (by norm_num)⟩,
    ⟨by norm_num, c4_horizon_fade.2.1 0 (by norm_num)⟩,
    c4_horizon_fade.2.2 (-120) (-90) (by norm_num) (by norm_num) (by norm_num)⟩

/-- C5: a building strictly past the despawn threshold (z > 20) before the
tick ends the advance+maybeRespawn tick at exactly respawnZ = -150, for any
nonnegative delta. -/
theorem c5_respawn_exact (b : Building) (delta rSide rX : ℚ)
    (hz : 20 < b.z) (hd : 0 ≤ delta) :
    (cityStep b delta rSide rX).z = -150 := by
  rw [cityStep_z_eq]
  rw [if_pos (by nlinarith)]

/-- C5 (witness): the theorem applied at z = despawnThreshold + 0.001 =
20001/1000 with delta = 1/60. -/
theorem c5_witness :
    (20 : ℚ) < 20001/1000 ∧ (0 : ℚ) ≤ 1/60 ∧
      (cityStep ⟨0, 0, 20001/1000, 2, 2, 10, true⟩ (1/60) 0 0).z = -150 :=
  ⟨by norm_num, by norm_num,
    c5_respawn_exact ⟨0, 0, 20001/1000, 2, 2, 10, true⟩ (1/60) 0 0
      (by norm_num) (by norm_num)⟩

/-- C6: when a prop has not crossed the despawn threshold (z ≤ 20), the
respawn check is a no-op — the whole building record, in particular all
three position coordinates, is unchanged. -/
theorem c6_respawn_noop (b : Building) (rSide rX : ℚ) (h : b.z ≤ 20) :
    cityMaybeRespawn b rSide rX = b := by
  unfold cityMaybeRespawn
  rw [if_neg (not_lt.mpr h)]

/-- C6 (witness): the theorem applied to a concrete building at z = 5. -/
theorem c6_witness :
    ((⟨3, 1, 5, 2, 2, 7, true⟩ : Building)).z ≤ 20 ∧
      cityMaybeRespawn ⟨3, 1, 5, 2, 2, 7, true⟩ 0 0 = ⟨3, 1, 5, 2, 2, 7, true⟩ :=
  ⟨by norm_num, c6_respawn_noop ⟨3, 1, 5, 2, 2, 7, true⟩ 0 0 (by norm_num)⟩

/-- C9: a respawn (and any whole sequence of advance+maybeRespawn ticks)
mutates only the travel-axis and lateral coordinates: the vertical
position, footprint width and depth, height and edge accent color all keep
their construction-time values. -/
theorem c9_respawn_preserves_statics :
    ∀ (b : Building) (rSide rX : ℚ) (ticks : List CityTick),
      ((cityMaybeRespawn b rSide rX).y = b.y ∧
        (cityMaybeRespawn b rSide rX).width = b.width ∧
        (cityMaybeRespawn b rSide rX).depth = b.depth ∧
        (cityMaybeRespawn b rSide rX).height = b.height ∧
        (cityMaybeRespawn b rSide rX).edgeCyan = b.edgeCyan) ∧
      ((cityRun b ticks).y = b.y ∧ (cityRun b ticks).width = b.width ∧
        (cityRun b ticks).depth = b.depth ∧
        (cityRun b ticks).height = b.height ∧
        (cityRun b ticks).edgeCyan = b.edgeCyan) :=
  fun b rSide rX ticks =>
    ⟨cityMaybeRespawn_statics b rSide rX, cityRun_statics ticks b⟩

/-- C10: over the byte range of bin energies, the intensity
m / 100 - 1.2 is non-positive exactly up to the dead-zone bound 120, the
radial scale is then exactly 0, and the scale is strictly positive exactly
when the energy exceeds 120. -/
theorem c10_dead_zone :
    ∀ m : ℕ, m ≤ 255 →
      (m ≤ 120 → intensity m ≤ 0 ∧ scaleY m = 0) ∧
        (0 < scaleY m ↔ 120 < m) := by
  intro m _
  have h100 : (0 : ℚ) < 100 := by norm_num
  have key : intensity m ≤ 0 ↔ (m : ℚ) ≤ 120 := by
    unfold intensity
    rw [sub_nonpos, div_le_iff h100]
    norm_num
  have key2 : 0 < intensity m ↔ (120 : ℚ) < m := by
    unfold intensity
    rw [sub_pos, lt_div_iff h100]
    norm_num
  constructor
  · intro h
    have hq : (m : ℚ) ≤ 120 := by exact_mod_cast h
    refine ⟨key.mpr hq, ?_⟩
    exact max_eq_left (mul_nonpos_iff.mpr (Or.inr ⟨key.mpr hq, by norm_num⟩))
  · constructor
    · intro h
      by_contra hn
      push_neg at hn
      have hq : (m : ℚ) ≤ 120 := by exact_mod_cast hn
      have hz : scaleY m = 0 :=
        max_eq_left (mul_nonpos_iff.mpr (Or.inr ⟨key.mpr hq, by norm_num⟩))
      rw [hz] at h
      exact lt_irrefl 0 h
    · intro h
      have hq : (120 : ℚ) < m := by exact_mod_cast h
      have hp : 0 < intensity m * 40 := mul_pos (key2.mpr hq) (by norm_num)
      exact lt_max_iff.mpr (Or.inr hp)

/-- C10 (witness): the theorem applied at m = 100: intensity is
non-positive and the bar is flat. -/
theorem c10_witness :
    (100 : ℕ) ≤ 255 ∧ (100 : ℕ) ≤ 120 ∧
      intensity 100 ≤ 0 ∧ scaleY 100 = 0 :=
  ⟨by norm_num, by norm_num,
    ((c10_dead_zone 100 (by norm_num)).1 (by norm_num)).1,
    ((c10_dead_zone 100 (by norm_num)).1 (by norm_num)).2⟩

/-- C7: terrain elevation is 0 everywhere inside the central road band
(normalized lateral distance at most roadHalfWidth = 0.4), and is
continuous in u across the road/mountain boundary: as u approaches the
band edge 0.7 from above — the normalized distance beyond the band tending
to 0 from above — the elevation tends to 0, at every fixed v and t. -/
theorem c7_elevation_flat_road_continuous :
    (∀ u v t : ℝ, |u - 0.5| * 2 ≤ 0.4 → elevation u v t = 0) ∧
    (∀ v t : ℝ, Filter.Tendsto (fun u => elevation u v t)
      (nhdsWithin 0.7 (Set.Ioi 0.7)) (nhds 0)) := by
  constructor
  · intro u v t h
    simp only [elevation]
    rw [if_neg (not_lt.mpr h)]
  · intro v t
    have hb : ∀ u ∈ Set.Ioi (0.7 : ℝ), |elevation u v t| ≤
        30 * ((|u - 0.5| * 2 - 0.4) / 0.6) ^ 3 +
          4 * ((|u - 0.5| * 2 - 0.4) / 0.6) := by
      intro u hu
      have hu7 : (0.7 : ℝ) < u := hu
      have h05 : (0 : ℝ) < u - 0.5 := by linarith
      have habs : |u - 0.5| = u - 0.5 := abs_of_pos h05
      have hdist : (0.4 : ℝ) < |u - 0.5| * 2 := by
        rw [habs]
        linarith
      have hF : (0 : ℝ) ≤ (|u - 0.5| * 2 - 0.4) / 0.6 :=
        div_nonneg (by linarith) (by norm_num)
      have hs1 : |Real.sin (v * 10 + t * 12)| ≤ 1 :=
        abs_le.mpr ⟨Real.neg_one_le_sin _, Real.sin_le_one _⟩
      have hc1 : |Real.cos (u * 20)| ≤ 1 :=
        abs_le.mpr ⟨Real.neg_one_le_cos _, Real.cos_le_one _⟩
      have hw : |Real.sin (v * 10 + t * 12) * 2 + Real.cos (u * 20) * 2| ≤ 4 := by
        calc |Real.sin (v * 10 + t * 12) * 2 + Real.cos (u * 20) * 2|
            ≤ |Real.sin (v * 10 + t * 12) * 2| + |Real.cos (u * 20) * 2| :=
              abs_add _ _
          _ = |Real.sin (v * 10 + t * 12)| * 2 + |Real.cos (u * 20)| * 2 := by
              rw [abs_mul, abs_mul]
              norm_num
          _ ≤ 1 * 2 + 1 * 2 := by
              have := mul_le_mul_of_nonneg_right hs1 (by norm_num : (0:ℝ) ≤ 2)
              have := mul_le_mul_of_nonneg_right hc1 (by norm_num : (0:ℝ) ≤ 2)
              linarith
          _ ≤ 4 := by norm_num
      simp only [elevation]
      rw [if_pos hdist]
      set F := (|u - 0.5| * 2 - 0.4) / 0.6 with hFdef
      calc |F ^ 3 * 30 +
            (Real.sin (v * 10 + t * 12) * 2 + Real.cos (u * 20) * 2) * F|
          ≤ |F ^ 3 * 30| +
            |(Real.sin (v * 10 + t * 12) * 2 + Real.cos (u * 20) * 2) * F| :=
            abs_add _ _
        _ = F ^ 3 * 30 +
            |Real.sin (v * 10 + t * 12) * 2 + Real.cos (u * 20) * 2| * F := by
            rw [abs_mul, abs_mul, abs_of_nonneg (pow_nonneg hF 3),
              abs_of_nonneg hF, abs_of_nonneg (by norm_num : (0:ℝ) ≤ 30)]
        _ ≤ F ^ 3 * 30 + 4 * F := by
            have := mul_le_mul_of_nonneg_right hw hF
            linarith
        _ = 30 * F ^ 3 + 4 * F := by ring
    have c1 : Continuous fun u : ℝ => (|u - 0.5| * 2 - 0.4) / 0.6 :=
      (((continuous_id.sub continuous_const).abs.mul
        continuous_const).sub continuous_const).div_const 0.6
    have hcont : Continuous fun u : ℝ =>
        30 * ((|u - 0.5| * 2 - 0.4) / 0.6) ^ 3 +
          4 * ((|u - 0.5| * 2 - 0.4) / 0.6) :=
      (continuous_const.mul (c1.pow 3)).add (continuous_const.mul c1)
    have htg : Filter.Tendsto (fun u : ℝ =>
        30 * ((|u - 0.5| * 2 - 0.4) / 0.6) ^ 3 +
          4 * ((|u - 0.5| * 2 - 0.4) / 0.6)) (nhds 0.7) (nhds 0) := by
      have h0 : (0 : ℝ) =
          30 * ((|(0.7 : ℝ) - 0.5| * 2 - 0.4) / 0.6) ^ 3 +
            4 * ((|(0.7 : ℝ) - 0.5| * 2 - 0.4) / 0.6) := by
        have habs : |(0.7 : ℝ) - 0.5| = 0.2 := by
          rw [show (0.7 : ℝ) - 0.5 = 0.2 by norm_num]
          rw [abs_of_pos]
          norm_num
        rw [habs]
        norm_num
      rw [h0]
      exact hcont.tendsto 0.7
    refine squeeze_zero_norm' ?_ (htg.mono_left nhdsWithin_le_nhds)
    exact Filter.eventually_of_mem self_mem_nhdsWithin
      (fun u hu => by rw [Real.norm_eq_abs]; exact hb u hu)

/-- C7 (witness): the flat-road part applied at the road center u = 0.5. -/
theorem c7_witness :
    |(0.5 : ℝ) - 0.5| * 2 ≤ 0.4 ∧ elevation 0.5 0 0 = 0 :=
  ⟨by norm_num, c7_elevation_flat_road_continuous.1 0.5 0 0 (by norm_num)⟩

/-- C8: the trajectory synthesizer is deterministic — two runs fed the same
elapsed-time sequence from the same initial pose, with the same engine
look-at resolver, produce identical pose sequences at every step: the step
reads only the elapsed time and the previous pose, and the jitter terms
are pure functions of elapsed time. -/
theorem c8_trajectory_deterministic
    (L : ℝ → ℝ → ℝ → ℝ → ℝ → ℝ → ℝ) (ts₁ ts₂ : List ℝ) (p₁ p₂ : Pose)
    (hts : ts₁ = ts₂) (hp : p₁ = p₂) :
    camStates L p₁ ts₁ = camStates L p₂ ts₂ := by
  subst hts
  subst hp
  rfl

/-- C8 (witness): the theorem applied to two copies of the three-sample
sequence 0, 1, 2 from the scene's initial camera pose. -/
theorem c8_witness :
    ([(0 : ℝ), 1, 2] = [(0 : ℝ), 1, 2]) ∧
      camStates lookAtZero initialPose [0, 1, 2] =
        camStates lookAtZero initialPose [0, 1, 2] :=
  ⟨rfl, c8_trajectory_deterministic lookAtZero [0, 1, 2] [0, 1, 2]
    initialPose initialPose rfl rfl⟩

end Synthwave
